import Mathlib

/-! FatFlash: sector adapter between FatFs and a wear-levelled flash device.

Shallow embedding of `components/fatflash/fatflash.cpp` (class `FatFlash`).

* Machine integers are natural numbers; `size_t`, `DWORD` and `UINT` are 32 bits wide on the
  ESP32, so products are reduced modulo `2 ^ 32` where the source multiplies.
* Pointers to `FatFlash` objects are addresses (`Ptr`); the objects live in `World.mem`.
  The static table `ff_instances` is a list of optional addresses, one entry per slot.
* Every function whose C text can leave defined behaviour (index outside `ff_instances`,
  call through a null `flash`, division by zero) returns `Option`, with `none` for that case.
* Calls into the collaborators (wear levelling, FatFs, the VFS glue, the allocator) are
  recorded, in program order, in `World.log`; their outcomes are supplied by `WL_Flash`
  (device methods) and `Env` (everything else).
-/

/-! ## Declarations taken from the included headers -/

/-- The type `esp_err_t` of `esp_err.h`: a signed status code. -/
abbrev esp_err_t := Int

/-- Success value of `esp_err_t`. -/
def ESP_OK : esp_err_t := 0

/-- Generic failure value of `esp_err_t`. -/
def ESP_FAIL : esp_err_t := -1

/-- Out-of-memory value of `esp_err_t`. -/
def ESP_ERR_NO_MEM : esp_err_t := 0x101

/-- Result codes of the FatFs API (`ff.h`); the codes the adapter never inspects
are gathered under `FR_OTHER`. -/
inductive FRESULT where
  | FR_OK
  | FR_NO_FILESYSTEM
  | FR_NOT_ENOUGH_CORE
  | FR_OTHER (code : Nat)
  deriving DecidableEq, Repr

/-- Result codes of the disk I/O functions (`diskio.h`). -/
inductive DRESULT where
  | RES_OK
  | RES_ERROR
  | RES_WRPRT
  | RES_NOTRDY
  | RES_PARERR
  deriving DecidableEq, Repr

/-- Disk status byte (`diskio.h`). -/
abbrev DSTATUS := Nat

/-- Status bit "drive not initialised" (`diskio.h`). -/
def STA_NOINIT : DSTATUS := 0x01

/-- The command codes of `disk_ioctl` named in the source. Their numeric values come from
`diskio.h`, which is not part of the component, so they are parameters; being labels of
one `switch`, they are pairwise distinct. -/
structure diskio_cmds where
  CTRL_SYNC : Nat
  GET_SECTOR_COUNT : Nat
  GET_SECTOR_SIZE : Nat
  GET_BLOCK_SIZE : Nat
  distinct : [CTRL_SYNC, GET_SECTOR_COUNT, GET_SECTOR_SIZE, GET_BLOCK_SIZE].Nodup

/-- Number of values of `size_t` (also of `DWORD` and `UINT`) on the ESP32. -/
def SIZE_T_RANGE : Nat := 2 ^ 32

/-- Number of values of the 16-bit type `WORD`. -/
def WORD_RANGE : Nat := 2 ^ 16

/-- Address of a `FatFlash` object. -/
abbrev Ptr := Nat

/-- Address of a `FATFS` object handed out by the VFS glue. -/
abbrev FATFS := Nat

/-- The geometry an initialised `ExtFlash` instance reports through `sector_size()` and
`chip_size()`. -/
structure ExtFlash where
  sector_size : Nat
  chip_size : Nat
  deriving DecidableEq, Repr

/-- Mirror of `fat_flash_config_t` (`fatflash.h`). -/
structure fat_flash_config_t where
  flash : ExtFlash
  base_path : String
  open_files : Int
  auto_format : Bool
  deriving DecidableEq, Repr

/-- Mirror of `wl_config_t` as filled in by `FatFlash::init`. -/
structure wl_config_t where
  start_addr : Nat
  full_mem_size : Nat
  page_size : Nat
  sector_size : Nat
  updaterate : Nat
  wr_size : Nat
  version : Nat
  temp_buff_size : Nat
  crc : Nat
  deriving DecidableEq, Repr

/-- The methods of the wear-levelling class `WL_Flash` that the adapter calls, acting on a
device state of type `σ`. Buffers are lists of bytes: `write` receives the source buffer
and the length, `read` returns the bytes it delivers into the destination. -/
structure WL_Flash (σ : Type) where
  config : σ → wl_config_t → Ptr → esp_err_t × σ
  init : σ → esp_err_t × σ
  erase_range : σ → Nat → Nat → esp_err_t × σ
  write : σ → Nat → List Nat → Nat → esp_err_t × σ
  read : σ → Nat → Nat → esp_err_t × List Nat × σ

/-- One call from the adapter into a collaborator, with the arguments that matter. A drive
string such as "0:" is represented by its drive number. -/
inductive Call where
  | new_WL_Flash
  | wl_config (cfg : wl_config_t) (access : Ptr)
  | wl_init
  | wl_erase_range (start_address size : Nat)
  | wl_write (dest_addr : Nat) (src : List Nat) (size : Nat)
  | wl_read (src_addr size : Nat)
  | delete_flash
  | ff_diskio_get_drive
  | ff_diskio_register (pdrv : Nat)
  | ff_diskio_unregister (pdrv : Nat)
  | esp_vfs_fat_register (base_path : String) (drv : Nat) (open_files : Int)
  | esp_vfs_fat_unregister_path (base_path : String)
  | f_mount (drv : Nat) (opt : Nat)
  | f_unmount (drv : Nat)
  | f_mkfs (drv : Nat) (len : Nat)
  | malloc (size : Nat)
  | free
  deriving DecidableEq, Repr

/-- The data members of class `FatFlash`. A null pointer is `none`; the device object behind
`flash` is owned by the adapter, so its state is stored in place. -/
structure FatFlash (σ : Type) where
  cfg : fat_flash_config_t
  chip_sz : Nat
  sector_sz : Nat
  flash : Option σ
  fs : Option FATFS
  pdrv : Nat
  mounted : Bool

/-- Program state: the `FatFlash` objects by address, the static table
`FatFlash::ff_instances`, and the trace of collaborator calls. -/
structure World (σ : Type) where
  mem : Ptr → FatFlash σ
  ff_instances : List (Option Ptr)
  log : List Call

/-- Outcomes of the collaborator calls made by `FatFlash::init` other than the device
methods. An out-parameter is `some v` when the callee stores `v` through it and `none` when
it leaves the target alone. The filesystem calls reach the device only through the disk
callbacks below; the device contents they leave behind are not tracked here. -/
structure Env (σ : Type) where
  new_WL_Flash : Option σ
  ff_diskio_get_drive : esp_err_t × Option Nat
  esp_vfs_fat_register : esp_err_t × Option FATFS
  f_mount_first : FRESULT
  malloc : Bool
  f_mkfs : FRESULT
  f_mount_retry : FRESULT

variable {σ : Type}

/-- Record a collaborator call in the trace. -/
def World.call (w : World σ) (c : Call) : World σ :=
  { w with log := w.log ++ [c] }

/-- Assign to data members of the object at address `p`. -/
def World.upd (w : World σ) (p : Ptr) (f : FatFlash σ → FatFlash σ) : World σ :=
  { w with mem := Function.update w.mem p (f (w.mem p)) }

namespace FatFlash

/-! ## Construction -/

/-- The constructor `FatFlash::FatFlash()`: it assigns four members and leaves `cfg`,
`chip_sz` and `sector_sz` as they were in the storage (`raw`). `FF_VOLUMES` is the
capacity macro of `ffconf.h`. -/
def ctor (FF_VOLUMES : Nat) (raw : FatFlash σ) : FatFlash σ :=
  { raw with flash := none, fs := none, pdrv := FF_VOLUMES, mounted := false }

/-! ## The disk I/O callbacks -/

/-- Product of two `size_t` operands as the target computes it: modulo `2 ^ 32`. -/
def size_t_mul (x y : Nat) : Nat := (x * y) % SIZE_T_RANGE

/-- Callback disk_initialize of class `FatFlash`. -/
def disk_initialize (w : World σ) (pdrv : Nat) : Option DSTATUS :=
  match w.ff_instances[pdrv]? with
  | none => none
  | some slot => some (if slot.isSome then 0 else STA_NOINIT)

/-- Callback `FatFlash::disk_status`. -/
def disk_status (w : World σ) (pdrv : Nat) : Option DSTATUS :=
  match w.ff_instances[pdrv]? with
  | none => none
  | some slot => some (if slot.isSome then 0 else STA_NOINIT)

/-- Callback `FatFlash::disk_read`. The list in the result holds the bytes the device
delivered into `buff` (empty when no device read took place). -/
def disk_read (D : WL_Flash σ) (w : World σ) (pdrv : Nat) (sector count : Nat) :
    Option (DRESULT × List Nat × World σ) :=
  match w.ff_instances[pdrv]? with
  | none => none
  | some none => some (DRESULT.RES_NOTRDY, [], w)
  | some (some that) =>
    let addr := size_t_mul sector (w.mem that).sector_sz
    let len := size_t_mul count (w.mem that).sector_sz
    match (w.mem that).flash with
    | none => none
    | some dev =>
      let r := D.read dev addr len
      let w1 := (w.call (Call.wl_read addr len)).upd that
        (fun a => { a with flash := some r.2.2 })
      if r.1 ≠ ESP_OK then some (DRESULT.RES_ERROR, r.2.1, w1)
      else some (DRESULT.RES_OK, r.2.1, w1)

/-- Callback `FatFlash::disk_write`. -/
def disk_write (D : WL_Flash σ) (w : World σ) (pdrv : Nat) (buff : List Nat)
    (sector count : Nat) : Option (DRESULT × World σ) :=
  match w.ff_instances[pdrv]? with
  | none => none
  | some none => some (DRESULT.RES_NOTRDY, w)
  | some (some that) =>
    let addr := size_t_mul sector (w.mem that).sector_sz
    let len := size_t_mul count (w.mem that).sector_sz
    match (w.mem that).flash with
    | none => none
    | some dev =>
      let r := D.erase_range dev addr len
      let w1 := (w.call (Call.wl_erase_range addr len)).upd that
        (fun a => { a with flash := some r.2 })
      if r.1 ≠ ESP_OK then some (DRESULT.RES_ERROR, w1)
      else
        let r2 := D.write r.2 addr buff len
        let w2 := (w1.call (Call.wl_write addr buff len)).upd that
          (fun a => { a with flash := some r2.2 })
        if r2.1 ≠ ESP_OK then some (DRESULT.RES_ERROR, w2)
        else some (DRESULT.RES_OK, w2)

/-- A store performed through the untyped `buff` argument of `disk_ioctl`: a 32-bit
`DWORD` or a 16-bit `WORD`, holding the value after conversion to that type. -/
inductive IoctlStore where
  | dword (v : Nat)
  | word (v : Nat)
  deriving DecidableEq, Repr

/-- Callback `FatFlash::disk_ioctl`. The second component of the result is the store made
through `buff`, if any. -/
def disk_ioctl (K : diskio_cmds) (w : World σ) (pdrv : Nat) (cmd : Nat) :
    Option (DRESULT × Option IoctlStore) :=
  match w.ff_instances[pdrv]? with
  | none => none
  | some none => some (DRESULT.RES_NOTRDY, none)
  | some (some that) =>
    if cmd = K.CTRL_SYNC then some (DRESULT.RES_OK, none)
    else if cmd = K.GET_SECTOR_COUNT then
      if (w.mem that).sector_sz = 0 then none
      else some (DRESULT.RES_OK,
        some (IoctlStore.dword (((w.mem that).chip_sz / (w.mem that).sector_sz) % SIZE_T_RANGE)))
    else if cmd = K.GET_SECTOR_SIZE then
      some (DRESULT.RES_OK, some (IoctlStore.word ((w.mem that).sector_sz % WORD_RANGE)))
    else if cmd = K.GET_BLOCK_SIZE then some (DRESULT.RES_ERROR, none)
    else some (DRESULT.RES_ERROR, none)

/-! ## Lifecycle -/

/-- The mount stage of `FatFlash::init` (from the first `f_mount` to the end of the
function): mount, and on `FR_NO_FILESYSTEM` with `auto_format` set, format and mount
again. -/
def init_mount (e : Env σ) (this : Ptr) (w : World σ) : esp_err_t × World σ :=
  let drv := (w.mem this).pdrv
  let w1 := w.call (Call.f_mount drv 1)
  if e.f_mount_first ≠ FRESULT.FR_OK then
    if e.f_mount_first ≠ FRESULT.FR_NO_FILESYSTEM ∨ (w.mem this).cfg.auto_format = false then
      (ESP_FAIL, w1)
    else
      let wbsize := (w.mem this).sector_sz
      let w2 := w1.call (Call.malloc wbsize)
      let result := if e.malloc then e.f_mkfs else FRESULT.FR_NOT_ENOUGH_CORE
      let w3 := if e.malloc then (w2.call (Call.f_mkfs drv wbsize)).call Call.free else w2
      if result ≠ FRESULT.FR_OK then (ESP_FAIL, w3)
      else
        let w4 := w3.call (Call.f_mount drv 0)
        if e.f_mount_retry ≠ FRESULT.FR_OK then (ESP_FAIL, w4)
        else (ESP_OK, w4.upd this (fun a => { a with mounted := true }))
  else (ESP_OK, w1.upd this (fun a => { a with mounted := true }))

/-- The initialiser of the local `wl_cfg` in `FatFlash::init`, from the members `chip_sz`
and `sector_sz`. -/
def wl_cfg_init (chip_sz sector_sz : Nat) : wl_config_t :=
  { start_addr := 0, full_mem_size := chip_sz, page_size := sector_sz,
    sector_size := sector_sz, updaterate := 16, wr_size := 16, version := 0,
    temp_buff_size := 32, crc := 0 }

/-- The method `FatFlash::init`, run on the object at address `this`. The getters
`sector_size()` and `chip_size()` of the configured `ExtFlash` are read from `config`. The
result is `none` when the assignment `ff_instances[pdrv] = this` falls outside the table. -/
def init (D : WL_Flash σ) (e : Env σ) (this : Ptr) (config : fat_flash_config_t)
    (w : World σ) : Option (esp_err_t × World σ) :=
  let w0 := w.upd this (fun a =>
    { a with cfg := config, sector_sz := config.flash.sector_size,
             chip_sz := config.flash.chip_size })
  let wl_cfg := wl_cfg_init config.flash.chip_size config.flash.sector_size
  let w1 := (w0.call Call.new_WL_Flash).upd this (fun a => { a with flash := e.new_WL_Flash })
  match e.new_WL_Flash with
  | none => some (ESP_ERR_NO_MEM, w1)
  | some dev =>
    let c := D.config dev wl_cfg this
    let w2 := (w1.call (Call.wl_config wl_cfg this)).upd this
      (fun a => { a with flash := some c.2 })
    if c.1 ≠ ESP_OK then some (c.1, w2)
    else
      let i := D.init c.2
      let w3 := (w2.call Call.wl_init).upd this (fun a => { a with flash := some i.2 })
      if i.1 ≠ ESP_OK then some (i.1, w3)
      else
        let w4 := (w3.call Call.ff_diskio_get_drive).upd this
          (fun a => { a with pdrv := e.ff_diskio_get_drive.2.getD a.pdrv })
        if e.ff_diskio_get_drive.1 ≠ ESP_OK then some (e.ff_diskio_get_drive.1, w4)
        else
          let pdrv := (w4.mem this).pdrv
          let w5 := w4.call (Call.ff_diskio_register pdrv)
          if pdrv < w5.ff_instances.length then
            let w6 : World σ :=
              { w5 with ff_instances := w5.ff_instances.set pdrv (some this) }
            let w7 := (w6.call
                (Call.esp_vfs_fat_register config.base_path pdrv config.open_files)).upd this
              (fun a => { a with fs := (e.esp_vfs_fat_register.2).orElse (fun _ => a.fs) })
            if e.esp_vfs_fat_register.1 ≠ ESP_OK then some (e.esp_vfs_fat_register.1, w7)
            else some (init_mount e this w7)
          else none

/-- The method `FatFlash::term`, run on the object at address `this`. -/
def term (FF_VOLUMES : Nat) (this : Ptr) (w : World σ) : World σ :=
  let w1 := if (w.mem this).mounted = true then
      (w.call (Call.f_unmount (w.mem this).pdrv)).upd this
        (fun a => { a with mounted := false })
    else w
  let w2 := if (w1.mem this).fs.isSome = true then
      (w1.call (Call.esp_vfs_fat_unregister_path (w1.mem this).cfg.base_path)).upd this
        (fun a => { a with fs := none })
    else w1
  let w3 := if (w2.mem this).pdrv ≠ FF_VOLUMES then
      (w2.call (Call.ff_diskio_unregister (w2.mem this).pdrv)).upd this
        (fun a => { a with pdrv := FF_VOLUMES })
    else w2
  if (w3.mem this).flash.isSome = true then
    (w3.call Call.delete_flash).upd this (fun a => { a with flash := none })
  else w3

/-! ## Auxiliary notions used in the statements -/

/-- The empty state of an adapter: what the constructor establishes. -/
def IsEmpty (FF_VOLUMES : Nat) (a : FatFlash σ) : Prop :=
  a.flash = none ∧ a.fs = none ∧ a.pdrv = FF_VOLUMES ∧ a.mounted = false

/-- The device behaves as an array of `chip` bytes, read off its state by `cell`: inside
the chip every operation succeeds, `erase_range` blanks the range, `write` stores the
source bytes and `read` returns the stored bytes without disturbing them. -/
structure BehavesAsByteArray (D : WL_Flash σ) (chip : Nat) (cell : σ → Nat → Nat) : Prop where
  erase_ok : ∀ s a n, a + n ≤ chip →
    (D.erase_range s a n).1 = ESP_OK ∧
    ∀ x, cell (D.erase_range s a n).2 x = if a ≤ x ∧ x < a + n then 0xFF else cell s x
  write_ok : ∀ s a src n, a + n ≤ chip →
    (D.write s a src n).1 = ESP_OK ∧
    ∀ x, cell (D.write s a src n).2 x =
      if a ≤ x ∧ x < a + n then src.getD (x - a) 0 else cell s x
  read_ok : ∀ s a n, a + n ≤ chip →
    (D.read s a n).1 = ESP_OK ∧
    (D.read s a n).2.1 = (List.range' a n).map (cell s) ∧
    ∀ x, cell (D.read s a n).2.2 x = cell s x

/-- A device that is literally an array of `chip` bytes (a function from addresses to
bytes); requests that leave the chip fail and change nothing. -/
def arrayFlash (chip : Nat) : WL_Flash (Nat → Nat) where
  config := fun s _ _ => (ESP_OK, s)
  init := fun s => (ESP_OK, s)
  erase_range := fun s a n =>
    if a + n ≤ chip then (ESP_OK, fun x => if a ≤ x ∧ x < a + n then 0xFF else s x)
    else (ESP_FAIL, s)
  write := fun s a src n =>
    if a + n ≤ chip then
      (ESP_OK, fun x => if a ≤ x ∧ x < a + n then src.getD (x - a) 0 else s x)
    else (ESP_FAIL, s)
  read := fun s a n =>
    if a + n ≤ chip then (ESP_OK, (List.range' a n).map s, s) else (ESP_FAIL, [], s)

/-- The collaborator calls `init` makes before the mount stage when every step up to it
succeeds and drive `d` is in use. -/
def setupCalls (config : fat_flash_config_t) (this : Ptr) (d : Nat) : List Call :=
  [Call.new_WL_Flash,
   Call.wl_config (wl_cfg_init config.flash.chip_size config.flash.sector_size) this,
   Call.wl_init, Call.ff_diskio_get_drive, Call.ff_diskio_register d,
   Call.esp_vfs_fat_register config.base_path d config.open_files]

/-- An array device whose `config` method rejects every configuration. -/
def rejectingFlash (chip : Nat) : WL_Flash (Nat → Nat) :=
  { arrayFlash chip with config := fun s _ _ => (ESP_FAIL, s) }

/-- Number of `f_mkfs` calls in a trace. -/
def formatCalls (log : List Call) : Nat :=
  (log.filter (fun c => match c with | Call.f_mkfs _ _ => true | _ => false)).length

/-- Number of `f_mount` calls in a trace. -/
def mountCalls (log : List Call) : Nat :=
  (log.filter (fun c => match c with | Call.f_mount _ _ => true | _ => false)).length

/-- The command codes with the values FatFs assigns them. -/
def fatfs_cmds : diskio_cmds :=
  { CTRL_SYNC := 0, GET_SECTOR_COUNT := 1, GET_SECTOR_SIZE := 2, GET_BLOCK_SIZE := 3,
    distinct := by decide }

/-- A sample configuration: a 1 MiB chip with 4 KiB sectors, formatting allowed. -/
def sampleConfig : fat_flash_config_t :=
  { flash := { sector_size := 4096, chip_size := 1048576 },
    base_path := "/fatflash", open_files := 4, auto_format := true }

/-- A freshly constructed adapter with two volume slots configured. -/
def freshAdapter : FatFlash (Nat → Nat) :=
  ctor 2 { cfg := sampleConfig, chip_sz := 0, sector_sz := 0, flash := none, fs := none,
           pdrv := 0, mounted := false }

/-- A start state: fresh adapters everywhere, an empty two-slot table, an empty trace. -/
def freshWorld : World (Nat → Nat) :=
  { mem := fun _ => freshAdapter, ff_instances := [none, none], log := [] }

/-- An adapter registered with a blank array device of the given geometry. -/
def liveAdapter (sector chip : Nat) : FatFlash (Nat → Nat) :=
  { cfg := sampleConfig, chip_sz := chip, sector_sz := sector, flash := some (fun _ => 0xFF),
    fs := some 1, pdrv := 0, mounted := true }

/-- A state in which slot 0 of a two-slot table holds the adapter at address 7. -/
def liveWorld (sector chip : Nat) : World (Nat → Nat) :=
  { mem := fun _ => liveAdapter sector chip, ff_instances := [some 7, none], log := [] }

/-- Collaborator outcomes for a blank volume when the work buffer cannot be allocated. -/
def noMemEnv : Env (Nat → Nat) :=
  { new_WL_Flash := some (fun _ => 0xFF), ff_diskio_get_drive := (ESP_OK, some 0),
    esp_vfs_fat_register := (ESP_OK, some 1), f_mount_first := FRESULT.FR_NO_FILESYSTEM,
    malloc := false, f_mkfs := FRESULT.FR_OK, f_mount_retry := FRESULT.FR_OK }

/-- Collaborator outcomes for a blank volume when formatting fails. -/
def formatFailsEnv : Env (Nat → Nat) :=
  { new_WL_Flash := some (fun _ => 0xFF), ff_diskio_get_drive := (ESP_OK, some 0),
    esp_vfs_fat_register := (ESP_OK, some 1), f_mount_first := FRESULT.FR_NO_FILESYSTEM,
    malloc := true, f_mkfs := FRESULT.FR_OTHER 1, f_mount_retry := FRESULT.FR_OK }

/-- Collaborator outcomes for a blank volume that formats and mounts. -/
def blankEnv : Env (Nat → Nat) :=
  { new_WL_Flash := some (fun _ => 0xFF), ff_diskio_get_drive := (ESP_OK, some 0),
    esp_vfs_fat_register := (ESP_OK, some 1), f_mount_first := FRESULT.FR_NO_FILESYSTEM,
    malloc := true, f_mkfs := FRESULT.FR_OK, f_mount_retry := FRESULT.FR_OK }

/-- Collaborator outcomes in which every step succeeds and drive 0 is handed out. -/
def goodEnv : Env (Nat → Nat) :=
  { new_WL_Flash := some (fun _ => 0xFF), ff_diskio_get_drive := (ESP_OK, some 0),
    esp_vfs_fat_register := (ESP_OK, some 1), f_mount_first := FRESULT.FR_OK,
    malloc := true, f_mkfs := FRESULT.FR_OK, f_mount_retry := FRESULT.FR_OK }

/-! ## Sector translation -/

/-- A product below `2 ^ 32` is computed exactly. -/
theorem size_t_mul_eq_of_lt {x y : Nat} (h : x * y < SIZE_T_RANGE) : size_t_mul x y = x * y := by
  unfold size_t_mul
  exact Nat.mod_eq_of_lt h

/-- A sector range inside the chip has exact byte offset and length, inside the chip. -/
theorem in_chip_bounds {sector count ss chip : Nat} (hchip : chip < SIZE_T_RANGE)
    (hrange : sector + count ≤ chip / ss) :
    sector * ss < SIZE_T_RANGE ∧ count * ss < SIZE_T_RANGE ∧ sector * ss + count * ss ≤ chip := by
  have h1 : (sector + count) * ss ≤ chip :=
    le_trans (Nat.mul_le_mul_right ss hrange) (Nat.div_mul_le_self chip ss)
  have h2 : sector * ss + count * ss ≤ chip := by rw [← Nat.add_mul]; exact h1
  refine ⟨?_, ?_, h2⟩ <;> omega

/-- Reading back, address by address, a range that holds the list gives the list. -/
theorem map_range_eq_of_getD (l : List Nat) (a : Nat) (f : Nat → Nat)
    (hf : ∀ x, a ≤ x → x < a + l.length → f x = l.getD (x - a) 0) :
    (List.range' a l.length).map f = l := by
  apply List.ext_getElem
  · simp
  · intro i h1 h2
    simp only [List.getElem_map, List.getElem_range', one_mul]
    rw [hf (a + i) (by omega) (by omega)]
    simp [List.getD_eq_getElem?_getD, List.getElem?_eq_getElem h2]

/-- C1. Round trip: for an adapter registered under `pdrv` whose device behaves as an array
of `chip_sz` bytes, a sector range inside the chip and a buffer of exactly that many bytes,
`disk_write` returns `RES_OK` and a following `disk_read` of the same range returns `RES_OK`
with the bytes written. `chip_sz` is a `size_t`, hence below `2 ^ 32`. -/
theorem disk_write_read_roundtrip (D : WL_Flash σ) (cell : σ → Nat → Nat) (w : World σ)
    (pdrv : Nat) (that : Ptr) (dev : σ) (buff : List Nat) (sector count : Nat)
    (hreg : w.ff_instances[pdrv]? = some (some that))
    (hdev : (w.mem that).flash = some dev)
    (hchip : (w.mem that).chip_sz < SIZE_T_RANGE)
    (harr : BehavesAsByteArray D (w.mem that).chip_sz cell)
    (hrange : sector + count ≤ (w.mem that).chip_sz / (w.mem that).sector_sz)
    (hbuf : buff.length = count * (w.mem that).sector_sz) :
    ∃ w1 w2, disk_write D w pdrv buff sector count = some (DRESULT.RES_OK, w1) ∧
      disk_read D w1 pdrv sector count = some (DRESULT.RES_OK, buff, w2) := by
  obtain ⟨hs, hc, hin⟩ := in_chip_bounds hchip hrange
  have ha := size_t_mul_eq_of_lt hs
  have hl := size_t_mul_eq_of_lt hc
  have he := harr.erase_ok dev (sector * (w.mem that).sector_sz)
    (count * (w.mem that).sector_sz) hin
  have hw := harr.write_ok
    (D.erase_range dev (sector * (w.mem that).sector_sz) (count * (w.mem that).sector_sz)).2
    (sector * (w.mem that).sector_sz) buff (count * (w.mem that).sector_sz) hin
  have hr := harr.read_ok
    (D.write
      (D.erase_range dev (sector * (w.mem that).sector_sz) (count * (w.mem that).sector_sz)).2
      (sector * (w.mem that).sector_sz) buff (count * (w.mem that).sector_sz)).2
    (sector * (w.mem that).sector_sz) (count * (w.mem that).sector_sz) hin
  have hdata : List.map
      (cell (D.write
        (D.erase_range dev (sector * (w.mem that).sector_sz)
          (count * (w.mem that).sector_sz)).2
        (sector * (w.mem that).sector_sz) buff (count * (w.mem that).sector_sz)).2)
      (List.range' (sector * (w.mem that).sector_sz) (count * (w.mem that).sector_sz))
      = buff := by
    have hmap := map_range_eq_of_getD buff (sector * (w.mem that).sector_sz)
      (cell (D.write
        (D.erase_range dev (sector * (w.mem that).sector_sz)
          (count * (w.mem that).sector_sz)).2
        (sector * (w.mem that).sector_sz) buff (count * (w.mem that).sector_sz)).2)
      (fun x h1 h2 => by rw [hw.2 x, if_pos ⟨h1, by rw [← hbuf]; exact h2⟩])
    rw [hbuf] at hmap
    exact hmap
  simp only [disk_write, hreg, hdev, ha, hl, he.1, hw.1, ne_eq, not_true_eq_false, if_false]
  apply Exists.intro
  apply Exists.intro
  refine ⟨rfl, ?_⟩
  simp only [disk_read, World.call, World.upd, hreg, Function.update_same, ha, hl, hr.1,
    ne_eq, not_true_eq_false, if_false]
  rw [hr.2.1, hdata]

/-- The array device satisfies the byte-array laws, with the state itself as contents. -/
theorem arrayFlash_behaves (chip : Nat) :
    BehavesAsByteArray (arrayFlash chip) chip (fun s => s) := by
  refine ⟨?_, ?_, ?_⟩
  · intro s a n h
    simp [arrayFlash, h]
  · intro s a src n h
    simp [arrayFlash, h]
  · intro s a n h
    simp [arrayFlash, h]

/-- Witness for C1: sectors 1 and 2 of a 16-byte chip with 4-byte sectors. -/
theorem disk_write_read_roundtrip_witness :
    ∃ w1 w2, disk_write (arrayFlash 16) (liveWorld 4 16) 0 [1, 2, 3, 4, 5, 6, 7, 8] 1 2
        = some (DRESULT.RES_OK, w1) ∧
      disk_read (arrayFlash 16) w1 0 1 2 = some (DRESULT.RES_OK, [1, 2, 3, 4, 5, 6, 7, 8], w2) :=
  disk_write_read_roundtrip (arrayFlash 16) (fun s => s) (liveWorld 4 16) 0 7 (fun _ => 0xFF)
    [1, 2, 3, 4, 5, 6, 7, 8] 1 2 rfl rfl (by decide) (arrayFlash_behaves 16) (by decide) rfl

/-- The calls and the result of `disk_write`, with `addr` and `len` standing for the offset
and length the source computes. -/
theorem disk_write_trace (D : WL_Flash σ) (w : World σ) (pdrv : Nat) (that : Ptr)
    (dev : σ) (buff : List Nat) (sector count addr len : Nat)
    (hreg : w.ff_instances[pdrv]? = some (some that))
    (hdev : (w.mem that).flash = some dev)
    (ha : size_t_mul sector (w.mem that).sector_sz = addr)
    (hl : size_t_mul count (w.mem that).sector_sz = len) :
    ∃ r w1, disk_write D w pdrv buff sector count = some (r, w1) ∧
      ((D.erase_range dev addr len).1 = ESP_OK →
        w1.log = w.log ++ [Call.wl_erase_range addr len, Call.wl_write addr buff len]) ∧
      ((D.erase_range dev addr len).1 ≠ ESP_OK →
        r = DRESULT.RES_ERROR ∧ w1.log = w.log ++ [Call.wl_erase_range addr len]) ∧
      (r = DRESULT.RES_OK ↔
        (D.erase_range dev addr len).1 = ESP_OK ∧
        (D.write (D.erase_range dev addr len).2 addr buff len).1 = ESP_OK) ∧
      (r = DRESULT.RES_OK ∨ r = DRESULT.RES_ERROR) := by
  subst ha hl
  simp only [disk_write, hreg, hdev]
  split_ifs with he hw
  · exact ⟨_, _, rfl, by simp [he], by simp [World.call, World.upd], by simp [he], by simp⟩
  · refine ⟨_, _, rfl, by simp [World.call, World.upd], by simp_all, by simp_all, by simp⟩
  · refine ⟨_, _, rfl, by simp [World.call, World.upd], by simp_all, by simp_all, by simp⟩

/-- The calls and the result of `disk_read`, with `addr` and `len` standing for the offset
and length the source computes. -/
theorem disk_read_trace (D : WL_Flash σ) (w : World σ) (pdrv : Nat) (that : Ptr)
    (dev : σ) (sector count addr len : Nat)
    (hreg : w.ff_instances[pdrv]? = some (some that))
    (hdev : (w.mem that).flash = some dev)
    (ha : size_t_mul sector (w.mem that).sector_sz = addr)
    (hl : size_t_mul count (w.mem that).sector_sz = len) :
    ∃ r data w1, disk_read D w pdrv sector count = some (r, data, w1) ∧
      w1.log = w.log ++ [Call.wl_read addr len] ∧
      ((D.read dev addr len).1 = ESP_OK → r = DRESULT.RES_OK) ∧
      ((D.read dev addr len).1 ≠ ESP_OK → r = DRESULT.RES_ERROR) := by
  subst ha hl
  simp only [disk_read, hreg, hdev]
  split_ifs with he
  · exact ⟨_, _, _, rfl, by simp [World.call, World.upd], by simp [he], by simp⟩
  · refine ⟨_, _, _, rfl, by simp [World.call, World.upd], by simp, by simp_all⟩

/-- C2, as the code behaves. For an adapter registered under `pdrv` with a live device,
`disk_write` issues one `erase_range` and then, only when the erase succeeded, one `write`
of the buffer over the same offset and length; it returns `RES_OK` exactly when both device
operations succeed, and when the erase fails it returns `RES_ERROR` with the erase as its
only device call. The offset and length are `sector * sector_sz` and `count * sector_sz`
reduced modulo `2 ^ 32`; for a request inside the chip (with `chip_sz` a `size_t`) they are
the exact products. -/
theorem disk_write_erase_then_write (D : WL_Flash σ) (w : World σ) (pdrv : Nat) (that : Ptr)
    (dev : σ) (buff : List Nat) (sector count : Nat)
    (hreg : w.ff_instances[pdrv]? = some (some that))
    (hdev : (w.mem that).flash = some dev) :
    (∃ r w1, disk_write D w pdrv buff sector count = some (r, w1) ∧
      ((D.erase_range dev ((sector * (w.mem that).sector_sz) % 2 ^ 32)
          ((count * (w.mem that).sector_sz) % 2 ^ 32)).1 = ESP_OK →
        w1.log = w.log ++
          [Call.wl_erase_range ((sector * (w.mem that).sector_sz) % 2 ^ 32)
             ((count * (w.mem that).sector_sz) % 2 ^ 32),
           Call.wl_write ((sector * (w.mem that).sector_sz) % 2 ^ 32) buff
             ((count * (w.mem that).sector_sz) % 2 ^ 32)]) ∧
      ((D.erase_range dev ((sector * (w.mem that).sector_sz) % 2 ^ 32)
          ((count * (w.mem that).sector_sz) % 2 ^ 32)).1 ≠ ESP_OK →
        r = DRESULT.RES_ERROR ∧
        w1.log = w.log ++
          [Call.wl_erase_range ((sector * (w.mem that).sector_sz) % 2 ^ 32)
             ((count * (w.mem that).sector_sz) % 2 ^ 32)]) ∧
      (r = DRESULT.RES_OK ↔
        (D.erase_range dev ((sector * (w.mem that).sector_sz) % 2 ^ 32)
          ((count * (w.mem that).sector_sz) % 2 ^ 32)).1 = ESP_OK ∧
        (D.write
          (D.erase_range dev ((sector * (w.mem that).sector_sz) % 2 ^ 32)
            ((count * (w.mem that).sector_sz) % 2 ^ 32)).2
          ((sector * (w.mem that).sector_sz) % 2 ^ 32) buff
          ((count * (w.mem that).sector_sz) % 2 ^ 32)).1 = ESP_OK) ∧
      (r = DRESULT.RES_OK ∨ r = DRESULT.RES_ERROR)) ∧
    ((w.mem that).chip_sz < 2 ^ 32 →
      sector + count ≤ (w.mem that).chip_sz / (w.mem that).sector_sz →
      ∃ r w1, disk_write D w pdrv buff sector count = some (r, w1) ∧
        ((D.erase_range dev (sector * (w.mem that).sector_sz)
            (count * (w.mem that).sector_sz)).1 = ESP_OK →
          w1.log = w.log ++
            [Call.wl_erase_range (sector * (w.mem that).sector_sz)
               (count * (w.mem that).sector_sz),
             Call.wl_write (sector * (w.mem that).sector_sz) buff
               (count * (w.mem that).sector_sz)]) ∧
        ((D.erase_range dev (sector * (w.mem that).sector_sz)
            (count * (w.mem that).sector_sz)).1 ≠ ESP_OK →
          r = DRESULT.RES_ERROR ∧
          w1.log = w.log ++
            [Call.wl_erase_range (sector * (w.mem that).sector_sz)
               (count * (w.mem that).sector_sz)]) ∧
        (r = DRESULT.RES_OK ↔
          (D.erase_range dev (sector * (w.mem that).sector_sz)
            (count * (w.mem that).sector_sz)).1 = ESP_OK ∧
          (D.write
            (D.erase_range dev (sector * (w.mem that).sector_sz)
              (count * (w.mem that).sector_sz)).2
            (sector * (w.mem that).sector_sz) buff
            (count * (w.mem that).sector_sz)).1 = ESP_OK) ∧
        (r = DRESULT.RES_OK ∨ r = DRESULT.RES_ERROR)) := by
  refine ⟨disk_write_trace D w pdrv that dev buff sector count _ _ hreg hdev rfl rfl, ?_⟩
  intro hchip hrange
  obtain ⟨hs, hc, _⟩ := in_chip_bounds hchip hrange
  exact disk_write_trace D w pdrv that dev buff sector count _ _ hreg hdev
    (size_t_mul_eq_of_lt hs) (size_t_mul_eq_of_lt hc)

/-- Witness for C2 as amended: writing sectors 1 and 2 of a 16-byte array device with 4-byte
sectors erases and then writes bytes 4 to 11 and returns `RES_OK`. -/
theorem disk_write_erase_then_write_witness :
    ∃ r w1, disk_write (arrayFlash 16) (liveWorld 4 16) 0 [1, 2, 3, 4, 5, 6, 7, 8] 1 2
        = some (r, w1) ∧
      r = DRESULT.RES_OK ∧
      w1.log = [Call.wl_erase_range 4 8, Call.wl_write 4 [1, 2, 3, 4, 5, 6, 7, 8] 8] := by
  obtain ⟨r, w1, h, hlog, _, hiff, _⟩ :=
    (disk_write_erase_then_write (arrayFlash 16) (liveWorld 4 16) 0 7 (fun _ => 0xFF)
      [1, 2, 3, 4, 5, 6, 7, 8] 1 2 rfl rfl).2 (by decide) (by decide)
  exact ⟨r, w1, h, hiff.mpr ⟨rfl, rfl⟩, hlog rfl⟩

/-- C2 fails as stated: with 4096-byte sectors, sector number `2 ^ 20 + 1` starts at byte
`2 ^ 32 + 4096`, and `disk_write` erases and writes the range at byte 4096 of the chip,
returning `RES_OK`. -/
theorem disk_write_range_wraps :
    (disk_write (arrayFlash 1048576) (liveWorld 4096 1048576) 0 [] 1048577 1).map
        (fun r => (r.1, r.2.log))
      = some (DRESULT.RES_OK, [Call.wl_erase_range 4096 4096, Call.wl_write 4096 [] 4096]) ∧
    Call.wl_erase_range 4096 4096 ≠ Call.wl_erase_range (1048577 * 4096) (1 * 4096) := by
  refine ⟨by decide, by decide⟩

/-- C3, as the code behaves. For an adapter registered under `pdrv` with a live device,
`disk_read` issues one device `read` and no other device call; it returns `RES_OK` when that
read succeeds and `RES_ERROR` when it fails, whatever the error code. The offset and length
are `sector * sector_sz` and `count * sector_sz` reduced modulo `2 ^ 32`; for a request
inside the chip (with `chip_sz` a `size_t`) they are the exact products. -/
theorem disk_read_single_read (D : WL_Flash σ) (w : World σ) (pdrv : Nat) (that : Ptr)
    (dev : σ) (sector count : Nat)
    (hreg : w.ff_instances[pdrv]? = some (some that))
    (hdev : (w.mem that).flash = some dev) :
    (∃ r data w1, disk_read D w pdrv sector count = some (r, data, w1) ∧
      w1.log = w.log ++
        [Call.wl_read ((sector * (w.mem that).sector_sz) % 2 ^ 32)
           ((count * (w.mem that).sector_sz) % 2 ^ 32)] ∧
      ((D.read dev ((sector * (w.mem that).sector_sz) % 2 ^ 32)
          ((count * (w.mem that).sector_sz) % 2 ^ 32)).1 = ESP_OK → r = DRESULT.RES_OK) ∧
      ((D.read dev ((sector * (w.mem that).sector_sz) % 2 ^ 32)
          ((count * (w.mem that).sector_sz) % 2 ^ 32)).1 ≠ ESP_OK →
        r = DRESULT.RES_ERROR)) ∧
    ((w.mem that).chip_sz < 2 ^ 32 →
      sector + count ≤ (w.mem that).chip_sz / (w.mem that).sector_sz →
      ∃ r data w1, disk_read D w pdrv sector count = some (r, data, w1) ∧
        w1.log = w.log ++
          [Call.wl_read (sector * (w.mem that).sector_sz) (count * (w.mem that).sector_sz)] ∧
        ((D.read dev (sector * (w.mem that).sector_sz)
            (count * (w.mem that).sector_sz)).1 = ESP_OK → r = DRESULT.RES_OK) ∧
        ((D.read dev (sector * (w.mem that).sector_sz)
            (count * (w.mem that).sector_sz)).1 ≠ ESP_OK → r = DRESULT.RES_ERROR)) := by
  refine ⟨disk_read_trace D w pdrv that dev sector count _ _ hreg hdev rfl rfl, ?_⟩
  intro hchip hrange
  obtain ⟨hs, hc, _⟩ := in_chip_bounds hchip hrange
  exact disk_read_trace D w pdrv that dev sector count _ _ hreg hdev
    (size_t_mul_eq_of_lt hs) (size_t_mul_eq_of_lt hc)

/-- Witness for C3 as amended: reading sectors 1 and 2 of a 16-byte array device with
4-byte sectors is one device read of bytes 4 to 11 and returns `RES_OK`. -/
theorem disk_read_single_read_witness :
    ∃ r data w1, disk_read (arrayFlash 16) (liveWorld 4 16) 0 1 2 = some (r, data, w1) ∧
      r = DRESULT.RES_OK ∧ w1.log = [Call.wl_read 4 8] := by
  obtain ⟨r, data, w1, h, hlog, hok, _⟩ :=
    (disk_read_single_read (arrayFlash 16) (liveWorld 4 16) 0 7 (fun _ => 0xFF) 1 2
      rfl rfl).2 (by decide) (by decide)
  exact ⟨r, data, w1, h, hok rfl, hlog⟩

/-- C3 fails as stated: with 4096-byte sectors, sector number `2 ^ 20 + 2` starts at byte
`2 ^ 32 + 8192`, and `disk_read` reads the range at byte 8192 of the chip, returning
`RES_OK`. -/
theorem disk_read_range_wraps :
    (disk_read (arrayFlash 1048576) (liveWorld 4096 1048576) 0 1048578 1).map
        (fun r => (r.1, r.2.2.log)) = some (DRESULT.RES_OK, [Call.wl_read 8192 4096]) ∧
    Call.wl_read 8192 4096 ≠ Call.wl_read (1048578 * 4096) (1 * 4096) := by
  refine ⟨by decide, by decide⟩

/-- C9, as the code behaves. The offset and length that `disk_read` and `disk_write` hand
to the device are the products `sector * sector_sz` and `count * sector_sz` reduced modulo
`2 ^ 32`; for a request inside the chip (with `chip_sz` a `size_t`) they are the exact
products. -/
theorem disk_offsets_size_t (D : WL_Flash σ) (w : World σ) (pdrv : Nat) (that : Ptr)
    (dev : σ) (buff : List Nat) (sector count : Nat)
    (hreg : w.ff_instances[pdrv]? = some (some that))
    (hdev : (w.mem that).flash = some dev) :
    (∃ r data w1, disk_read D w pdrv sector count = some (r, data, w1) ∧
      w1.log = w.log ++ [Call.wl_read ((sector * (w.mem that).sector_sz) % 2 ^ 32)
        ((count * (w.mem that).sector_sz) % 2 ^ 32)]) ∧
    (∃ r w1 rest, disk_write D w pdrv buff sector count = some (r, w1) ∧
      w1.log = w.log ++ Call.wl_erase_range ((sector * (w.mem that).sector_sz) % 2 ^ 32)
        ((count * (w.mem that).sector_sz) % 2 ^ 32) :: rest ∧
      ∀ c ∈ rest, c = Call.wl_write ((sector * (w.mem that).sector_sz) % 2 ^ 32) buff
        ((count * (w.mem that).sector_sz) % 2 ^ 32)) ∧
    ((w.mem that).chip_sz < 2 ^ 32 →
      sector + count ≤ (w.mem that).chip_sz / (w.mem that).sector_sz →
      (∃ r data w1, disk_read D w pdrv sector count = some (r, data, w1) ∧
        w1.log = w.log ++ [Call.wl_read (sector * (w.mem that).sector_sz)
          (count * (w.mem that).sector_sz)]) ∧
      (∃ r w1 rest, disk_write D w pdrv buff sector count = some (r, w1) ∧
        w1.log = w.log ++ Call.wl_erase_range (sector * (w.mem that).sector_sz)
          (count * (w.mem that).sector_sz) :: rest ∧
        ∀ c ∈ rest, c = Call.wl_write (sector * (w.mem that).sector_sz) buff
          (count * (w.mem that).sector_sz))) := by
  have key : (∃ r data w1, disk_read D w pdrv sector count = some (r, data, w1) ∧
      w1.log = w.log ++ [Call.wl_read (size_t_mul sector (w.mem that).sector_sz)
        (size_t_mul count (w.mem that).sector_sz)]) ∧
    (∃ r w1 rest, disk_write D w pdrv buff sector count = some (r, w1) ∧
      w1.log = w.log ++ Call.wl_erase_range (size_t_mul sector (w.mem that).sector_sz)
        (size_t_mul count (w.mem that).sector_sz) :: rest ∧
      ∀ c ∈ rest, c = Call.wl_write (size_t_mul sector (w.mem that).sector_sz) buff
        (size_t_mul count (w.mem that).sector_sz)) := by
    constructor
    · simp only [disk_read, hreg, hdev]
      split_ifs
      · exact ⟨_, _, _, rfl, by simp [World.call, World.upd]⟩
      · exact ⟨_, _, _, rfl, by simp [World.call, World.upd]⟩
    · simp only [disk_write, hreg, hdev]
      split_ifs
      · exact ⟨_, _, [], rfl, by simp [World.call, World.upd], by simp⟩
      · exact ⟨_, _, [Call.wl_write (size_t_mul sector (w.mem that).sector_sz) buff
          (size_t_mul count (w.mem that).sector_sz)], rfl,
          by simp [World.call, World.upd], by simp⟩
      · exact ⟨_, _, [Call.wl_write (size_t_mul sector (w.mem that).sector_sz) buff
          (size_t_mul count (w.mem that).sector_sz)], rfl,
          by simp [World.call, World.upd], by simp⟩
  refine ⟨key.1, key.2, ?_⟩
  intro hchip hrange
  obtain ⟨hs, hc, _⟩ := in_chip_bounds hchip hrange
  rw [size_t_mul_eq_of_lt hs, size_t_mul_eq_of_lt hc] at key
  exact key

/-- Witness for C9 as amended: sector 1, two sectors, on a 16-byte chip with 4-byte
sectors. -/
theorem disk_offsets_size_t_witness :
    (∃ r data w1, disk_read (arrayFlash 16) (liveWorld 4 16) 0 1 2 = some (r, data, w1) ∧
      w1.log = [] ++ [Call.wl_read ((1 * 4) % 2 ^ 32) ((2 * 4) % 2 ^ 32)]) ∧
    (∃ r w1 rest, disk_write (arrayFlash 16) (liveWorld 4 16) 0 [9, 9] 1 2 = some (r, w1) ∧
      w1.log = [] ++ Call.wl_erase_range ((1 * 4) % 2 ^ 32) ((2 * 4) % 2 ^ 32) :: rest ∧
      ∀ c ∈ rest, c = Call.wl_write ((1 * 4) % 2 ^ 32) [9, 9] ((2 * 4) % 2 ^ 32)) ∧
    ((16 : Nat) < 2 ^ 32 → 1 + 2 ≤ 16 / 4 →
      (∃ r data w1, disk_read (arrayFlash 16) (liveWorld 4 16) 0 1 2 = some (r, data, w1) ∧
        w1.log = [] ++ [Call.wl_read (1 * 4) (2 * 4)]) ∧
      (∃ r w1 rest, disk_write (arrayFlash 16) (liveWorld 4 16) 0 [9, 9] 1 2 = some (r, w1) ∧
        w1.log = [] ++ Call.wl_erase_range (1 * 4) (2 * 4) :: rest ∧
        ∀ c ∈ rest, c = Call.wl_write (1 * 4) [9, 9] (2 * 4))) :=
  disk_offsets_size_t (arrayFlash 16) (liveWorld 4 16) 0 7 (fun _ => 0xFF) [9, 9] 1 2 rfl rfl

/-- C9 fails as stated: with 4096-byte sectors, sector number `2 ^ 20` has byte offset
`2 ^ 32`, and `disk_read` and `disk_write` pass offset 0 to the device, which serves the
request from the start of the chip. -/
theorem disk_offset_wraps :
    (disk_read (arrayFlash 1048576) (liveWorld 4096 1048576) 0 1048576 1).map
        (fun r => (r.1, r.2.2.log)) = some (DRESULT.RES_OK, [Call.wl_read 0 4096]) ∧
    (disk_write (arrayFlash 1048576) (liveWorld 4096 1048576) 0 [] 1048576 1).map
        (fun r => (r.1, r.2.log))
      = some (DRESULT.RES_OK, [Call.wl_erase_range 0 4096, Call.wl_write 0 [] 4096]) ∧
    (0 : Nat) ≠ 1048576 * 4096 := by
  refine ⟨by decide, by decide, by decide⟩

/-! ## Registry lookup and control queries -/

/-- C8, as the code behaves. For a drive id below `FF_VOLUMES` the lookup is defined: the callbacks
 disk_initialize and `disk_status` return 0 when the slot holds an adapter and `STA_NOINIT`
when it is empty, the two agree, and with an empty slot `disk_read`, `disk_write` and
`disk_ioctl` return `RES_NOTRDY` and leave the state, trace included, as it was. -/
theorem disk_lookup_in_table (D : WL_Flash σ) (K : diskio_cmds) (FF_VOLUMES : Nat)
    (w : World σ) (pdrv : Nat) (buff : List Nat) (sector count cmd : Nat)
    (hlen : w.ff_instances.length = FF_VOLUMES) (hp : pdrv < FF_VOLUMES) :
    ((∃ that, w.ff_instances[pdrv]? = some (some that)) ∨ w.ff_instances[pdrv]? = some none) ∧
    ((∃ that, w.ff_instances[pdrv]? = some (some that)) →
       disk_initialize w pdrv = some 0 ∧ disk_status w pdrv = some 0) ∧
    (w.ff_instances[pdrv]? = some none →
       disk_initialize w pdrv = some STA_NOINIT ∧ disk_status w pdrv = some STA_NOINIT ∧
      disk_read D w pdrv sector count = some (DRESULT.RES_NOTRDY, [], w) ∧
      disk_write D w pdrv buff sector count = some (DRESULT.RES_NOTRDY, w) ∧
      disk_ioctl K w pdrv cmd = some (DRESULT.RES_NOTRDY, none)) ∧
     disk_status w pdrv = disk_initialize w pdrv := by
  have hlt : pdrv < w.ff_instances.length := by omega
  have hget : w.ff_instances[pdrv]? = some w.ff_instances[pdrv] := List.getElem?_eq_getElem hlt
  refine ⟨?_, ?_, ?_, rfl⟩
  · rw [hget]
    cases w.ff_instances[pdrv] with
    | none => exact Or.inr rfl
    | some that => exact Or.inl ⟨that, rfl⟩
  · rintro ⟨that, h⟩
    simp [ disk_initialize, disk_status, h]
  · intro h
    simp [ disk_initialize, disk_status, disk_read, disk_write, disk_ioctl, h]

/-- Witness for C8 as amended: slot 1 of the fresh two-slot table. -/
theorem disk_lookup_in_table_witness :
    ((∃ that, freshWorld.ff_instances[1]? = some (some that)) ∨
      freshWorld.ff_instances[1]? = some none) ∧
    ((∃ that, freshWorld.ff_instances[1]? = some (some that)) →
       disk_initialize freshWorld 1 = some 0 ∧ disk_status freshWorld 1 = some 0) ∧
    (freshWorld.ff_instances[1]? = some none →
       disk_initialize freshWorld 1 = some STA_NOINIT ∧
       disk_status freshWorld 1 = some STA_NOINIT ∧
      disk_read (arrayFlash 16) freshWorld 1 0 1 = some (DRESULT.RES_NOTRDY, [], freshWorld) ∧
      disk_write (arrayFlash 16) freshWorld 1 [5] 0 1 = some (DRESULT.RES_NOTRDY, freshWorld) ∧
      disk_ioctl fatfs_cmds freshWorld 1 0 = some (DRESULT.RES_NOTRDY, none)) ∧
     disk_status freshWorld 1 = disk_initialize freshWorld 1 :=
  disk_lookup_in_table (arrayFlash 16) fatfs_cmds 2 freshWorld 1 [5] 0 1 0 rfl (by decide)

/-- C8 fails as stated: with two slots, drive id 200 indexes `ff_instances` outside the
table, so none of the five callbacks has a defined result there; in particular the status
callbacks do not answer `STA_NOINIT` and the I/O callbacks do not answer `RES_NOTRDY`. -/
theorem disk_lookup_outside_table :
    freshWorld.ff_instances.length = 2 ∧
     disk_status freshWorld 200 = none ∧  disk_initialize freshWorld 200 = none ∧
     disk_status freshWorld 200 ≠ some STA_NOINIT ∧
    (disk_read (arrayFlash 16) freshWorld 200 0 1).map (fun r => r.1) ≠ some DRESULT.RES_NOTRDY ∧
    (disk_write (arrayFlash 16) freshWorld 200 [] 0 1).map (fun r => r.1)
      ≠ some DRESULT.RES_NOTRDY ∧
    (disk_ioctl fatfs_cmds freshWorld 200 0).map (fun r => r.1) ≠ some DRESULT.RES_NOTRDY := by
  refine ⟨by decide, by decide, by decide, by decide, by decide, by decide, by decide⟩

/-- C4, as the code behaves. For an adapter registered under `pdrv`: `CTRL_SYNC` returns
`RES_OK` and stores nothing; `GET_SECTOR_COUNT`, for a nonzero sector size, returns `RES_OK`
and stores `chip_sz / sector_sz` as a 32-bit value (the exact quotient, `chip_sz` being a
`size_t`); `GET_SECTOR_SIZE` returns `RES_OK` and stores `sector_sz` converted to 16 bits,
which is `sector_sz` itself when it is below `2 ^ 16`; every other command, `GET_BLOCK_SIZE`
included, returns `RES_ERROR` and stores nothing. -/
theorem disk_ioctl_commands (K : diskio_cmds) (w : World σ) (pdrv : Nat) (that : Ptr)
    (cmd : Nat) (hreg : w.ff_instances[pdrv]? = some (some that)) :
    disk_ioctl K w pdrv K.CTRL_SYNC = some (DRESULT.RES_OK, none) ∧
    (0 < (w.mem that).sector_sz →
      disk_ioctl K w pdrv K.GET_SECTOR_COUNT = some (DRESULT.RES_OK,
        some (IoctlStore.dword (((w.mem that).chip_sz / (w.mem that).sector_sz) % 2 ^ 32)))) ∧
    (0 < (w.mem that).sector_sz → (w.mem that).chip_sz < 2 ^ 32 →
      disk_ioctl K w pdrv K.GET_SECTOR_COUNT = some (DRESULT.RES_OK,
        some (IoctlStore.dword ((w.mem that).chip_sz / (w.mem that).sector_sz)))) ∧
    disk_ioctl K w pdrv K.GET_SECTOR_SIZE = some (DRESULT.RES_OK,
      some (IoctlStore.word ((w.mem that).sector_sz % 2 ^ 16))) ∧
    ((w.mem that).sector_sz < 2 ^ 16 →
      disk_ioctl K w pdrv K.GET_SECTOR_SIZE = some (DRESULT.RES_OK,
        some (IoctlStore.word (w.mem that).sector_sz))) ∧
    disk_ioctl K w pdrv K.GET_BLOCK_SIZE = some (DRESULT.RES_ERROR, none) ∧
    (cmd ≠ K.CTRL_SYNC → cmd ≠ K.GET_SECTOR_COUNT → cmd ≠ K.GET_SECTOR_SIZE →
      disk_ioctl K w pdrv cmd = some (DRESULT.RES_ERROR, none)) := by
  have hd := K.distinct
  simp only [List.nodup_cons, List.mem_cons, List.mem_singleton, not_or, List.not_mem_nil,
    not_false_eq_true, List.nodup_nil, and_true] at hd
  obtain ⟨⟨h01, h02, h03⟩, ⟨h12, h13⟩, h23⟩ := hd
  refine ⟨?_, ?_, ?_, ?_, ?_, ?_, ?_⟩
  · simp [disk_ioctl, hreg]
  · intro hss
    have hne : (w.mem that).sector_sz ≠ 0 := by omega
    simp [disk_ioctl, hreg, Ne.symm h01, hne, SIZE_T_RANGE]
  · intro hss hchip
    have hne : (w.mem that).sector_sz ≠ 0 := by omega
    have hq : (w.mem that).chip_sz / (w.mem that).sector_sz < 2 ^ 32 :=
      lt_of_le_of_lt (Nat.div_le_self _ _) hchip
    simp [disk_ioctl, hreg, Ne.symm h01, hne, SIZE_T_RANGE]
    omega
  · simp [disk_ioctl, hreg, Ne.symm h02, Ne.symm h12, WORD_RANGE]
  · intro hss
    simp [disk_ioctl, hreg, Ne.symm h02, Ne.symm h12, WORD_RANGE]
    omega
  · simp [disk_ioctl, hreg, Ne.symm h03, Ne.symm h13, Ne.symm h23]
  · intro c0 c1 c2
    simp [disk_ioctl, hreg, c0, c1, c2]

/-- Witness for C4 as amended: a 1 MiB chip with 4 KiB sectors has 256 sectors. -/
theorem disk_ioctl_commands_witness :
    disk_ioctl fatfs_cmds (liveWorld 4096 1048576) 0 fatfs_cmds.CTRL_SYNC
      = some (DRESULT.RES_OK, none) ∧
    (0 < 4096 →
      disk_ioctl fatfs_cmds (liveWorld 4096 1048576) 0 fatfs_cmds.GET_SECTOR_COUNT
        = some (DRESULT.RES_OK, some (IoctlStore.dword ((1048576 / 4096) % 2 ^ 32)))) ∧
    (0 < 4096 → 1048576 < 2 ^ 32 →
      disk_ioctl fatfs_cmds (liveWorld 4096 1048576) 0 fatfs_cmds.GET_SECTOR_COUNT
        = some (DRESULT.RES_OK, some (IoctlStore.dword (1048576 / 4096)))) ∧
    disk_ioctl fatfs_cmds (liveWorld 4096 1048576) 0 fatfs_cmds.GET_SECTOR_SIZE
      = some (DRESULT.RES_OK, some (IoctlStore.word (4096 % 2 ^ 16))) ∧
    (4096 < 2 ^ 16 →
      disk_ioctl fatfs_cmds (liveWorld 4096 1048576) 0 fatfs_cmds.GET_SECTOR_SIZE
        = some (DRESULT.RES_OK, some (IoctlStore.word 4096))) ∧
    disk_ioctl fatfs_cmds (liveWorld 4096 1048576) 0 fatfs_cmds.GET_BLOCK_SIZE
      = some (DRESULT.RES_ERROR, none) ∧
    ((9 : Nat) ≠ fatfs_cmds.CTRL_SYNC → 9 ≠ fatfs_cmds.GET_SECTOR_COUNT →
      9 ≠ fatfs_cmds.GET_SECTOR_SIZE →
      disk_ioctl fatfs_cmds (liveWorld 4096 1048576) 0 9 = some (DRESULT.RES_ERROR, none)) :=
  disk_ioctl_commands fatfs_cmds (liveWorld 4096 1048576) 0 7 9 rfl

/-- C4 fails as stated: with a sector size of 65536 the 16-bit store of `GET_SECTOR_SIZE`
holds 0, not the sector size; and with a sector size of 0 the quotient of
`GET_SECTOR_COUNT` is a division by zero, so the call has no defined result. -/
theorem disk_ioctl_sector_size_truncated :
    disk_ioctl fatfs_cmds (liveWorld 65536 1048576) 0 fatfs_cmds.GET_SECTOR_SIZE
      = some (DRESULT.RES_OK, some (IoctlStore.word 0)) ∧
    IoctlStore.word 0 ≠ IoctlStore.word 65536 ∧
    disk_ioctl fatfs_cmds (liveWorld 0 1048576) 0 fatfs_cmds.GET_SECTOR_COUNT = none := by
  refine ⟨by decide, by decide, by decide⟩

/-! ## Lifecycle -/

/-- C7. Whatever state the adapter is in, `term` leaves it empty (no device handle, no
filesystem handle, drive id `FF_VOLUMES`, not mounted); the constructor establishes the
empty state; on an empty adapter `term` changes nothing at all, neither a member nor the
table nor the trace of collaborator calls; hence `term` twice equals `term` once. -/
theorem term_idempotent (FF_VOLUMES : Nat) (this : Ptr) (w : World σ) (raw : FatFlash σ) :
    IsEmpty FF_VOLUMES ((term FF_VOLUMES this w).mem this) ∧
    IsEmpty FF_VOLUMES (ctor FF_VOLUMES raw) ∧
    (IsEmpty FF_VOLUMES (w.mem this) → term FF_VOLUMES this w = w) ∧
    term FF_VOLUMES this (term FF_VOLUMES this w) = term FF_VOLUMES this w := by
  have hempty : ∀ v : World σ, IsEmpty FF_VOLUMES (v.mem this) → term FF_VOLUMES this v = v := by
    intro v hv
    obtain ⟨h1, h2, h3, h4⟩ := hv
    simp [term, h1, h2, h3, h4]
  have hafter : ∀ v : World σ, IsEmpty FF_VOLUMES ((term FF_VOLUMES this v).mem this) := by
    intro v
    unfold term IsEmpty
    simp only [World.call, World.upd]
    split_ifs <;> simp_all [Function.update_same]
  exact ⟨hafter w, ⟨rfl, rfl, rfl, rfl⟩, hempty w, hempty _ (hafter w)⟩

/-- Witness for C7: `term` empties a mounted adapter, and leaves the fresh state as it
is. -/
theorem term_idempotent_witness :
    IsEmpty 2 ((term 2 7 (liveWorld 4096 1048576)).mem 7) ∧
    IsEmpty 2 (freshWorld.mem 7) ∧ term 2 7 freshWorld = freshWorld :=
  ⟨(term_idempotent 2 7 (liveWorld 4096 1048576) freshAdapter).1, ⟨rfl, rfl, rfl, rfl⟩,
    (term_idempotent 2 7 freshWorld freshAdapter).2.2.1 ⟨rfl, rfl, rfl, rfl⟩⟩

/-- C10, as the code behaves. On an empty adapter, when `config` or `init` of the freshly
allocated wear-levelling object fails with `err`, `FatFlash::init` returns `err` and stops:
the trace holds only the allocation and the device calls up to the failing one, the table
and every other object are untouched, the drive id is still `FF_VOLUMES`, there is no
filesystem handle and `mounted` is false. The adapter does keep the handle of the object it
allocated. -/
theorem init_device_failure (D : WL_Flash σ) (e : Env σ) (FF_VOLUMES : Nat) (this : Ptr)
    (config : fat_flash_config_t) (w : World σ) (dev : σ) (err : esp_err_t)
    (hempty : IsEmpty FF_VOLUMES (w.mem this))
    (halloc : e.new_WL_Flash = some dev)
    (herr : err ≠ ESP_OK)
    (hfail :
      (D.config dev (wl_cfg_init config.flash.chip_size config.flash.sector_size) this).1 = err ∨
      ((D.config dev (wl_cfg_init config.flash.chip_size config.flash.sector_size) this).1
          = ESP_OK ∧
        (D.init (D.config dev
          (wl_cfg_init config.flash.chip_size config.flash.sector_size) this).2).1 = err)) :
    ∃ w1, init D e this config w = some (err, w1) ∧
      w1.ff_instances = w.ff_instances ∧
      (w1.log = w.log ++ [Call.new_WL_Flash,
          Call.wl_config (wl_cfg_init config.flash.chip_size config.flash.sector_size) this] ∨
       w1.log = w.log ++ [Call.new_WL_Flash,
          Call.wl_config (wl_cfg_init config.flash.chip_size config.flash.sector_size) this,
          Call.wl_init]) ∧
      (w1.mem this).pdrv = FF_VOLUMES ∧ (w1.mem this).mounted = false ∧
      (w1.mem this).fs = none ∧ (w1.mem this).flash.isSome = true ∧
      (∀ p, p ≠ this → w1.mem p = w.mem p) := by
  obtain ⟨_, h2, h3, h4⟩ := hempty
  rcases hfail with hc | ⟨hc, hi⟩
  · subst hc
    simp only [init, halloc]
    rw [if_pos herr]
    refine ⟨_, rfl, rfl, Or.inl ?_, ?_, ?_, ?_, ?_, ?_⟩
    · simp [World.call, World.upd]
    · simpa [World.call, World.upd] using h3
    · simpa [World.call, World.upd] using h4
    · simpa [World.call, World.upd] using h2
    · simp [World.call, World.upd]
    · intro p hp
      simp [World.call, World.upd, Function.update_noteq hp]
  · subst hi
    simp only [init, halloc]
    rw [if_neg (not_not.mpr hc), if_pos herr]
    refine ⟨_, rfl, rfl, Or.inr ?_, ?_, ?_, ?_, ?_, ?_⟩
    · simp [World.call, World.upd]
    · simpa [World.call, World.upd] using h3
    · simpa [World.call, World.upd] using h4
    · simpa [World.call, World.upd] using h2
    · simp [World.call, World.upd]
    · intro p hp
      simp [World.call, World.upd, Function.update_noteq hp]

/-- Witness for C10 as amended: a device that rejects its configuration. -/
theorem init_device_failure_witness :
    ∃ w1, init (rejectingFlash 16) goodEnv 7 sampleConfig freshWorld = some (ESP_FAIL, w1) ∧
      w1.ff_instances = freshWorld.ff_instances ∧
      (w1.log = freshWorld.log ++ [Call.new_WL_Flash,
          Call.wl_config (wl_cfg_init sampleConfig.flash.chip_size
            sampleConfig.flash.sector_size) 7] ∨
       w1.log = freshWorld.log ++ [Call.new_WL_Flash,
          Call.wl_config (wl_cfg_init sampleConfig.flash.chip_size
            sampleConfig.flash.sector_size) 7,
          Call.wl_init]) ∧
      (w1.mem 7).pdrv = 2 ∧ (w1.mem 7).mounted = false ∧
      (w1.mem 7).fs = none ∧ (w1.mem 7).flash.isSome = true ∧
      (∀ p, p ≠ 7 → w1.mem p = freshWorld.mem p) :=
  init_device_failure (rejectingFlash 16) goodEnv 2 7 sampleConfig freshWorld (fun _ => 0xFF)
    ESP_FAIL ⟨rfl, rfl, rfl, rfl⟩ rfl (by decide) (Or.inl rfl)

/-- C10 fails as stated: after `init` on a fresh adapter fails in the device's `config`
step, the adapter holds a device handle, so it is not in the empty state it started in. -/
theorem init_failure_keeps_device :
    (freshWorld.mem 7).flash.isSome = false ∧
    (init (rejectingFlash 16) goodEnv 7 sampleConfig freshWorld).map
        (fun r => (r.1, (r.2.mem 7).flash.isSome)) = some (ESP_FAIL, true) := by
  refine ⟨by decide, by decide⟩

/-- When every step before the mount stage succeeds, `init` is the mount stage run on a
state in which the adapter is configured and registered under its drive. -/
theorem init_reaches_mount (D : WL_Flash σ) (e : Env σ) (this : Ptr)
    (config : fat_flash_config_t) (w : World σ) (dev : σ)
    (halloc : e.new_WL_Flash = some dev)
    (hconfig :
      (D.config dev (wl_cfg_init config.flash.chip_size config.flash.sector_size) this).1
        = ESP_OK)
    (hinit : (D.init (D.config dev
      (wl_cfg_init config.flash.chip_size config.flash.sector_size) this).2).1 = ESP_OK)
    (hdrive : e.ff_diskio_get_drive.1 = ESP_OK)
    (hslot : e.ff_diskio_get_drive.2.getD (w.mem this).pdrv < w.ff_instances.length)
    (hvfs : e.esp_vfs_fat_register.1 = ESP_OK) :
    ∃ v, init D e this config w = some (init_mount e this v) ∧
      (v.mem this).pdrv = e.ff_diskio_get_drive.2.getD (w.mem this).pdrv ∧
      (v.mem this).sector_sz = config.flash.sector_size ∧
      (v.mem this).cfg = config ∧
      (v.mem this).mounted = (w.mem this).mounted ∧
      v.log = w.log ++ setupCalls config this (e.ff_diskio_get_drive.2.getD (w.mem this).pdrv) ∧
      v.ff_instances = w.ff_instances.set (e.ff_diskio_get_drive.2.getD (w.mem this).pdrv)
        (some this) := by
  simp only [init, halloc, hconfig, hinit, hdrive, hvfs, ne_eq, not_true_eq_false, if_false,
    World.call, World.upd, Function.update_same, Function.update_idem, hslot, if_true]
  refine ⟨_, rfl, ?_, ?_, ?_, ?_, ?_, ?_⟩ <;> simp [setupCalls]

/-- C6, as the code behaves. Take a run of `init` that reaches the mount stage with drive
`d`. If the first mount succeeds, `init` returns `ESP_OK` with `mounted` set, after that
one `f_mount`. If it fails otherwise than with `FR_NO_FILESYSTEM`, or `auto_format` is off,
`init` returns `ESP_FAIL`, leaves `mounted` as it was and calls nothing further. If it fails
with `FR_NO_FILESYSTEM` and `auto_format` is on, a buffer of `sector_size` bytes is
requested; only when that allocation succeeds is `f_mkfs` called, once, with that size; only
when the format succeeds is `f_mount` called again, once; `init` returns `ESP_OK` with
`mounted` set exactly when allocation, format and second mount all succeed, and otherwise
returns `ESP_FAIL` with `mounted` as it was. -/
theorem init_mount_outcomes (D : WL_Flash σ) (e : Env σ) (this : Ptr)
    (config : fat_flash_config_t) (w : World σ) (dev : σ) (d : Nat)
    (halloc : e.new_WL_Flash = some dev)
    (hconfig :
      (D.config dev (wl_cfg_init config.flash.chip_size config.flash.sector_size) this).1
        = ESP_OK)
    (hinit : (D.init (D.config dev
      (wl_cfg_init config.flash.chip_size config.flash.sector_size) this).2).1 = ESP_OK)
    (hdrive : e.ff_diskio_get_drive.1 = ESP_OK)
    (hd : e.ff_diskio_get_drive.2.getD (w.mem this).pdrv = d)
    (hslot : d < w.ff_instances.length)
    (hvfs : e.esp_vfs_fat_register.1 = ESP_OK) :
    ∃ r w1, init D e this config w = some (r, w1) ∧
      (e.f_mount_first = FRESULT.FR_OK →
        r = ESP_OK ∧ (w1.mem this).mounted = true ∧
        w1.log = w.log ++ setupCalls config this d ++ [Call.f_mount d 1]) ∧
      (e.f_mount_first ≠ FRESULT.FR_OK →
        (e.f_mount_first ≠ FRESULT.FR_NO_FILESYSTEM ∨ config.auto_format = false) →
        r = ESP_FAIL ∧ (w1.mem this).mounted = (w.mem this).mounted ∧
        w1.log = w.log ++ setupCalls config this d ++ [Call.f_mount d 1]) ∧
      (e.f_mount_first = FRESULT.FR_NO_FILESYSTEM → config.auto_format = true →
        (e.malloc = false →
          r = ESP_FAIL ∧ (w1.mem this).mounted = (w.mem this).mounted ∧
          w1.log = w.log ++ setupCalls config this d ++
            [Call.f_mount d 1, Call.malloc config.flash.sector_size]) ∧
        (e.malloc = true → e.f_mkfs ≠ FRESULT.FR_OK →
          r = ESP_FAIL ∧ (w1.mem this).mounted = (w.mem this).mounted ∧
          w1.log = w.log ++ setupCalls config this d ++
            [Call.f_mount d 1, Call.malloc config.flash.sector_size,
             Call.f_mkfs d config.flash.sector_size, Call.free]) ∧
        (e.malloc = true → e.f_mkfs = FRESULT.FR_OK →
          w1.log = w.log ++ setupCalls config this d ++
            [Call.f_mount d 1, Call.malloc config.flash.sector_size,
             Call.f_mkfs d config.flash.sector_size, Call.free, Call.f_mount d 0] ∧
          (e.f_mount_retry ≠ FRESULT.FR_OK →
            r = ESP_FAIL ∧ (w1.mem this).mounted = (w.mem this).mounted) ∧
          (e.f_mount_retry = FRESULT.FR_OK → r = ESP_OK ∧ (w1.mem this).mounted = true)) ∧
        (r = ESP_OK ↔
          e.malloc = true ∧ e.f_mkfs = FRESULT.FR_OK ∧ e.f_mount_retry = FRESULT.FR_OK)) := by
  subst hd
  obtain ⟨v, hv, hp, hss, hcfg, hm, hlog, _⟩ :=
    init_reaches_mount D e this config w dev halloc hconfig hinit hdrive hslot hvfs
  have hfail : ESP_FAIL ≠ ESP_OK := by decide
  refine ⟨(init_mount e this v).1, (init_mount e this v).2, hv, ?_, ?_, ?_⟩
  · intro h1
    simp [init_mount, h1, World.call, World.upd, hp, hlog]
  · intro h1 h2
    have h2' : e.f_mount_first ≠ FRESULT.FR_NO_FILESYSTEM ∨ (v.mem this).cfg.auto_format = false := by
      rw [hcfg]; exact h2
    simp only [init_mount, if_pos h1, if_pos h2']
    simp [World.call, hp, hlog, hm]
  · intro h1 h2
    have h1' : e.f_mount_first ≠ FRESULT.FR_OK := by rw [h1]; decide
    have h2' : ¬ (e.f_mount_first ≠ FRESULT.FR_NO_FILESYSTEM ∨
        (v.mem this).cfg.auto_format = false) := by
      rw [hcfg, h1, h2]; simp
    simp only [init_mount, if_pos h1', if_neg h2']
    refine ⟨?_, ?_, ?_, ?_⟩
    · intro hmal
      simp [hmal, World.call, hp, hss, hlog, hm, hfail]
    · intro hmal hmk
      simp [hmal, hmk, World.call, hp, hss, hlog, hm, hfail]
    · intro hmal hmk
      refine ⟨?_, ?_, ?_⟩
      · by_cases hr : e.f_mount_retry = FRESULT.FR_OK <;>
          simp [hmal, hmk, hr, World.call, World.upd, hp, hss, hlog]
      · intro hr
        simp [hmal, hmk, hr, World.call, hm]
      · intro hr
        simp [hmal, hmk, hr, World.call, World.upd]
    · by_cases hmal : e.malloc = true
      · by_cases hmk : e.f_mkfs = FRESULT.FR_OK
        · by_cases hr : e.f_mount_retry = FRESULT.FR_OK
          · simp [hmal, hmk, hr]
          · simp [hmal, hmk, hr, hfail]
        · simp [hmal, hmk, hfail]
      · simp [hmal, hfail]

/-- Witness for C6 as amended: a blank volume is formatted once with a 4096-byte buffer and
mounted on the second attempt. -/
theorem init_mount_outcomes_witness :
    ∃ r w1, init (arrayFlash 1048576) blankEnv 7 sampleConfig freshWorld = some (r, w1) ∧
      r = ESP_OK ∧ (w1.mem 7).mounted = true ∧
      w1.log = freshWorld.log ++ setupCalls sampleConfig 7 0 ++
        [Call.f_mount 0 1, Call.malloc 4096, Call.f_mkfs 0 4096, Call.free, Call.f_mount 0 0] := by
  obtain ⟨r, w1, h, _, _, h3⟩ := init_mount_outcomes (arrayFlash 1048576) blankEnv 7
    sampleConfig freshWorld (fun _ => 0xFF) 0 rfl rfl rfl rfl rfl (by decide) rfl
  obtain ⟨_, _, h5, _⟩ := h3 rfl rfl
  obtain ⟨hlog, _, hok⟩ := h5 rfl rfl
  exact ⟨r, w1, h, (hok rfl).1, (hok rfl).2, hlog⟩

/-- C6 fails as stated: on a blank volume with `auto_format` on, when the work buffer cannot
be allocated `f_mkfs` is not called at all and the mount is not retried; when `f_mkfs` is
called and fails, the mount is not retried either. -/
theorem init_format_not_always_invoked :
    sampleConfig.auto_format = true ∧
    noMemEnv.f_mount_first = FRESULT.FR_NO_FILESYSTEM ∧
    (init (arrayFlash 1048576) noMemEnv 7 sampleConfig freshWorld).map
        (fun r => (r.1, formatCalls r.2.log, mountCalls r.2.log)) = some (ESP_FAIL, 0, 1) ∧
    formatFailsEnv.f_mount_first = FRESULT.FR_NO_FILESYSTEM ∧
    (init (arrayFlash 1048576) formatFailsEnv 7 sampleConfig freshWorld).map
        (fun r => (r.1, formatCalls r.2.log, mountCalls r.2.log)) = some (ESP_FAIL, 1, 1) := by
  refine ⟨by decide, by decide, by decide, by decide, by decide⟩

/-- The method `term` never writes the table `ff_instances`. -/
theorem term_preserves_table (FF_VOLUMES : Nat) (this : Ptr) (w : World σ) :
    (term FF_VOLUMES this w).ff_instances = w.ff_instances := by
  unfold term
  simp only [World.call, World.upd]
  split_ifs <;> rfl

/-- C5, evaluated: a fresh adapter on an empty two-slot table is initialised with every
step succeeding and then terminated. Slot 0 still holds the adapter, whose device handle is
gone, and `disk_status` for drive 0 answers 0 (ready), not `STA_NOINIT`. -/
theorem term_keeps_registry_entry :
    freshWorld.ff_instances = [none, none] ∧
    (init (arrayFlash 1048576) goodEnv 7 sampleConfig freshWorld).map
        (fun r => (r.1, (term 2 7 r.2).ff_instances,  disk_status (term 2 7 r.2) 0,
           disk_initialize (term 2 7 r.2) 0, ((term 2 7 r.2).mem 7).flash.isSome))
      = some (ESP_OK, [some 7, none], some 0, some 0, false) := by
  refine ⟨by decide, by decide⟩

end FatFlash
